import Mathlib

/-!
Verification development for `pyhydra/adml_classification.py` (repository
bhvieira/mlni).  The module's entry points (`classification_roi`,
`classification_voxel`, the two `_feature_selection` variants and
`classification_multiscale_opnmf`) are shallowly embedded as pure Lean
functions that return the sequence of externally visible events a call
performs (file reads/writes, directory creation, partition generation and
caching, workflow runs, voting) together with the exception, if any, that
the call raises.  Tabular data (`pandas.DataFrame`) is embedded as a list
of column names plus a list of rows of string cells, with the exact
DataFrame operations the source uses (`isin` filtering, `set_index` /
`reindex` / `reset_index`, column assignment, `rename`).
-/

namespace Pyhydra

/-- A `pandas.DataFrame` as the source uses it: named columns and rows of
cells, all cells kept as strings (the tsv surface form). -/
structure DataFrame where
  cols : List String
  rows : List (List String)
deriving DecidableEq

/-- Index of the first column with the given name, if any. -/
def idxOfCol : List String → String → Option Nat
  | [], _ => none
  | c :: cs, d => if c = d then some 0 else (idxOfCol cs d).map (· + 1)

/-- The cell of row `r` under the column named `c`, given the column list;
a missing column or a short row reads as the string NaN, as in pandas. -/
def cellAt (cols : List String) (r : List String) (c : String) : String :=
  match idxOfCol cols c with
  | some j => r.getD j "NaN"
  | none => "NaN"

/-- The column named `c` of a DataFrame, as a list (one entry per row);
this is `df[c]` in the source. -/
def colOf (df : DataFrame) (c : String) : List String :=
  df.rows.map (fun r => cellAt df.cols r c)

/-- Source line 270: `df_opnmf.loc[df_opnmf['participant_id'].isin(pids)]` —
keep only the rows whose participant_id occurs in `pids`. -/
def filterByParticipants (df : DataFrame) (pids : List String) : DataFrame :=
  { cols := df.cols,
    rows := df.rows.filter (fun r => pids.contains (cellAt df.cols r "participant_id")) }

/-- The non-participant_id cells of the row of `df` for participant `p`,
aligned with the columns of `df` minus participant_id; a participant with
no matching row yields NaN cells, as `reindex` produces. -/
def lookupRow (df : DataFrame) (p : String) : List String :=
  match df.rows.find? (fun r => cellAt df.cols r "participant_id" == p) with
  | some r => (df.cols.filter (fun c => !(c == "participant_id"))).map
      (fun c => cellAt df.cols r c)
  | none => (df.cols.filter (fun c => !(c == "participant_id"))).map (fun _ => "NaN")

/-- Source lines 275-277: `set_index('participant_id')`, then
`reindex(index=pids)`, then `reset_index()`.  The combined effect: the
rows are re-ordered to follow `pids`, and participant_id becomes the
first column again. -/
def reindexByParticipant (df : DataFrame) (pids : List String) : DataFrame :=
  { cols := "participant_id" :: df.cols.filter (fun c => !(c == "participant_id")),
    rows := pids.map (fun p => p :: lookupRow df p) }

/-- Source line 280: `df_opnmf["path"] = diagnosis_list` — replace an
existing column in place, or append a new one; pandas aligns by position
for a plain list. -/
def setCol (df : DataFrame) (c : String) (vals : List String) : DataFrame :=
  if df.cols.contains c then
    { cols := df.cols,
      rows := (df.rows.zip vals).map (fun rv =>
        df.cols.map (fun c2 => if c2 = c then rv.2 else cellAt df.cols rv.1 c2)) }
  else
    { cols := df.cols ++ [c],
      rows := (df.rows.zip vals).map (fun rv => rv.1 ++ [rv.2]) }

/-- Source line 281: `df_opnmf.rename(columns={'path': 'diagnosis'})`. -/
def renameCol (df : DataFrame) (old new : String) : DataFrame :=
  { cols := df.cols.map (fun c => if c = old then new else c),
    rows := df.rows }

/-- Source lines 269-281, the per-component table construction of
`classification_multiscale_opnmf`: filter the opNMF table to the
participants of the participant table, raise when the row counts differ,
re-order the rows to the participant table's participant_id order, then
substitute the participant table's diagnosis column for the path column. -/
def processComponentTable (df_participant df_opnmf0 : DataFrame) :
    Except String DataFrame :=
  let pids := colOf df_participant "participant_id"
  let df_opnmf1 := filterByParticipants df_opnmf0 pids
  if df_participant.rows.length ≠ df_opnmf1.rows.length then
    Except.error "The dimension of the participant_tsv and opNMF are not consistent!"
  else
    let df2 := reindexByParticipant df_opnmf1 pids
    let diagnosis_list := colOf df_participant "diagnosis"
    let df3 := setCol df2 "path" diagnosis_list
    Except.ok (renameCol df3 "path" "diagnosis")

/-- The argument record common to the four per-mode entry points
(`classification_roi`, `classification_voxel` and their
`_feature_selection` variants); `feature_tsv` also stands for the
`participant_tsv` argument of the voxel entry points.  The
feature-selection variants additionally take `feature_selection_method`
and `top_k`, which are only forwarded to the workflow constructor and do
not affect the control flow modelled here. -/
structure ClassifyCall where
  feature_tsv : String
  output_dir : String
  cv_repetition : Nat
  cv_strategy : String
  class_weight_balanced : Bool
  n_threads : Nat
  seed : Option Int
  verbose : Bool
deriving DecidableEq

/-- An exception escaping a call: a Python `TypeError`, or an `Exception`
raised by a `raise` statement, with its message. -/
inductive RunError where
  | typeError : String → RunError
  | exn : String → RunError
deriving DecidableEq

/-- The externally visible events of a call, in order. -/
inductive Event where
  | readInput : String → Event
  | loadCache : String → Event
  | callMakeCvPartition : String → Nat → Option Int → Event
  | generatePartition : String → Nat → Option Int → Event
  | persistPartition : String → Event
  | runWorkflow : String → String → Event
  | makeDir : String → Event
  | readTsv : String → Event
  | writeTsv : String → DataFrame → Event
  | callClassificationRoi : ClassifyCall → Event
  | callVoting : String → String → List Nat → Nat → Event
deriving DecidableEq

/-- A run's outcome: the event trace it produced and the exception, if
any, with which it aborted. -/
abbrev Outcome := List Event × Option RunError

/-- `os.path.join` for two segments. -/
def pathJoin (a b : String) : String := a ++ "/" ++ b

/-- The pickle filename of the persisted data split, exactly as the four
entry points build it: it depends on `cv_repetition` only. -/
def splitFilename (cv_repetition : Nat) : String :=
  "data_split_stratified_" ++ toString cv_repetition ++ "-holdout.pkl"

/-- The cache path consulted at source lines 46, 97, 145 and 196. -/
def consultedCachePath (output_dir : String) (cv_repetition : Nat) : String :=
  pathJoin output_dir (splitFilename cv_repetition)

/-- The cache path a given entry-point call consults for its data split,
as a function of the whole call configuration. -/
def cachePathOf (c : ClassifyCall) : String :=
  consultedCachePath c.output_dir c.cv_repetition

/-- Modelled from the spec: `make_cv_partition` lives in `pyhydra.utils`,
which is not among the sources here.  Per the spec (section 4.1) it
deterministically generates a stratified PartitionSet for a strategy in
the supported set and persists it, and it raises on a strategy outside
the supported set, before any partition is generated or persisted. -/
def make_cv_partition (strategy : String) (output_dir : String)
    (cv_repetition : Nat) (seed : Option Int) : Outcome :=
  if strategy = "hold_out" ∨ strategy = "k_fold" then
    ([Event.callMakeCvPartition strategy cv_repetition seed,
      Event.generatePartition strategy cv_repetition seed,
      Event.persistPartition (consultedCachePath output_dir cv_repetition)], none)
  else
    ([Event.callMakeCvPartition strategy cv_repetition seed],
     some (RunError.exn "cv strategy not supported by make_cv_partition"))

/-- Source lines 44-50 (identical at 95-101, 143-149, 194-200): if the
split pickle file exists it is unpickled, otherwise `make_cv_partition`
is called.  `fs` is the set of paths that exist on disk. -/
def dataSplitPhase (fs : String → Bool) (output_dir : String)
    (cv_repetition : Nat) (cv_strategy : String) (seed : Option Int) : Outcome :=
  if fs (consultedCachePath output_dir cv_repetition) then
    ([Event.loadCache (consultedCachePath output_dir cv_repetition)], none)
  else
    make_cv_partition cv_strategy output_dir cv_repetition seed

/-- Sequencing of two stages: the second runs only when the first did not
raise, and the traces concatenate. -/
def stepSeq (a : Outcome) (k : Unit → Outcome) : Outcome :=
  match a.2 with
  | some e => (a.1, some e)
  | none => (a.1 ++ (k ()).1, (k ()).2)

/-- Source lines 52-63: dispatch on `cv_strategy` after the data split;
the workflow name and its output directory identify what is run. -/
def roiDispatch (c : ClassifyCall) : Outcome :=
  if c.cv_strategy = "hold_out" then
    ([Event.runWorkflow "RB_RepeatedHoldOut_DualSVM_Classification"
        (pathJoin c.output_dir "classification")], none)
  else if c.cv_strategy = "k_fold" then
    ([Event.runWorkflow "RB_KFold_DualSVM_Classification"
        (pathJoin c.output_dir "classification")], none)
  else ([], some (RunError.exn "CV methods have not been implemented"))

/-- Source lines 18-65: `classification_roi`. -/
def classification_roi (fs : String → Bool) (c : ClassifyCall) : Outcome :=
  stepSeq ([Event.readInput c.feature_tsv], none) (fun _ =>
    stepSeq (dataSplitPhase fs c.output_dir c.cv_repetition c.cv_strategy c.seed) (fun _ =>
      roiDispatch c))

/-- Source lines 151-162: the voxel dispatch on `cv_strategy`. -/
def voxelDispatch (c : ClassifyCall) : Outcome :=
  if c.cv_strategy = "hold_out" then
    ([Event.runWorkflow "VB_RepeatedHoldOut_DualSVM_Classification"
        (pathJoin c.output_dir "classification")], none)
  else if c.cv_strategy = "k_fold" then
    ([Event.runWorkflow "VB_KFold_DualSVM_Classification"
        (pathJoin c.output_dir "classification")], none)
  else ([], some (RunError.exn "CV methods have not been implemented"))

/-- Source lines 117-164: `classification_voxel`. -/
def classification_voxel (fs : String → Bool) (c : ClassifyCall) : Outcome :=
  stepSeq ([Event.readInput c.feature_tsv], none) (fun _ =>
    stepSeq (dataSplitPhase fs c.output_dir c.cv_repetition c.cv_strategy c.seed) (fun _ =>
      voxelDispatch c))

/-- Source lines 103-113: the dispatch of `classification_roi_feature_selection`;
the `k_fold` arm raises instead of building a workflow. -/
def roiFsDispatch (c : ClassifyCall) : Outcome :=
  if c.cv_strategy = "hold_out" then
    ([Event.runWorkflow "RB_RepeatedHoldOut_DualSVM_Classification_Nested_Feature_Selection"
        (pathJoin c.output_dir "classification")], none)
  else if c.cv_strategy = "k_fold" then
    ([], some (RunError.exn
      "Non-nested feature selection is currently only supported for repeated hold-out CV"))
  else ([], some (RunError.exn "CV methods have not been implemented"))

/-- Source lines 67-115: `classification_roi_feature_selection`. -/
def classification_roi_feature_selection (fs : String → Bool) (c : ClassifyCall) : Outcome :=
  stepSeq ([Event.readInput c.feature_tsv], none) (fun _ =>
    stepSeq (dataSplitPhase fs c.output_dir c.cv_repetition c.cv_strategy c.seed) (fun _ =>
      roiFsDispatch c))

/-- Source lines 202-212: the dispatch of `classification_voxel_feature_selection`. -/
def voxelFsDispatch (c : ClassifyCall) : Outcome :=
  if c.cv_strategy = "hold_out" then
    ([Event.runWorkflow "VB_RepeatedHoldOut_DualSVM_Classification_Nested_Feature_Selection"
        (pathJoin c.output_dir "classification")], none)
  else if c.cv_strategy = "k_fold" then
    ([], some (RunError.exn
      "Non-nested feature selection is currently only supported for repeated hold-out CV"))
  else ([], some (RunError.exn "CV methods have not been implemented"))

/-- Source lines 166-214: `classification_voxel_feature_selection`. -/
def classification_voxel_feature_selection (fs : String → Bool) (c : ClassifyCall) : Outcome :=
  stepSeq ([Event.readInput c.feature_tsv], none) (fun _ =>
    stepSeq (dataSplitPhase fs c.output_dir c.cv_repetition c.cv_strategy c.seed) (fun _ =>
      voxelFsDispatch c))

/-- The world a multiscale run sees: which paths exist, and the contents
of the tsv files that `pd.read_csv` reads. -/
structure Env where
  fs : String → Bool
  readCsv : String → DataFrame

/-- The argument record of `classification_multiscale_opnmf`. -/
structure MsCall where
  participant_tsv : String
  opnmf_dir : String
  output_dir : String
  components_list : List Nat
  cv_repetition : Nat
  cv_strategy : String
  voting_method : String
  class_weight_balanced : Bool
  n_threads : Nat
  verbose : Bool
deriving DecidableEq

/-- Source line 263: the per-component output directory. -/
def componentOutputDir (output_dir : String) (i : Nat) : String :=
  pathJoin output_dir ("component_" ++ toString i)

/-- Source line 267: the opNMF output tsv for component count `i`. -/
def opnmfTsvPath (opnmf_dir : String) (i : Nat) : String :=
  pathJoin (pathJoin (pathJoin opnmf_dir "NMF") ("component_" ++ toString i))
    "atlas_components_signal.tsv"

/-- Source line 283: the intermediate per-scale tsv written for component
count `i`. -/
def intermediateTsvPath (output_dir : String) (i : Nat) : String :=
  pathJoin (pathJoin output_dir "intermediate") ("opnmf_component_" ++ toString i ++ ".tsv")

/-- Source line 288 calls `os.path.exists(component_output_dir,
'classification', 'mean_results.tsv')` with three positional arguments;
`os.path.exists` takes exactly one argument, so in Python the call raises
a `TypeError` before producing a Boolean. -/
def osPathExists3 (a b c : String) : Except RunError Bool :=
  Except.error (RunError.typeError
    "exists() takes 1 positional argument but 3 were given")

/-- Source lines 291-292: the argument record of the per-scale
`classification_roi` call; the seed is the literal `0`. -/
def perScaleRoiCall (opnmf_component_tsv component_output_dir : String)
    (cv_repetition : Nat) (cv_strategy : String) (class_weight_balanced : Bool)
    (n_threads : Nat) (verbose : Bool) : ClassifyCall :=
  { feature_tsv := opnmf_component_tsv, output_dir := component_output_dir,
    cv_repetition := cv_repetition, cv_strategy := cv_strategy,
    class_weight_balanced := class_weight_balanced, n_threads := n_threads,
    seed := some 0, verbose := verbose }

/-- Source lines 262-292, one iteration of the loop over
`components_list`: create the component directory when absent, read the
opNMF tsv, build and write the intermediate table, then evaluate the
artifact-existence condition of line 288 — which aborts with a
`TypeError`, so neither the skip branch nor the `classification_roi`
branch is ever reached. -/
def componentLoopBody (env : Env) (df_participant : DataFrame) (c : MsCall)
    (i : Nat) : Outcome :=
  let cod := componentOutputDir c.output_dir i
  let mk : List Event := if env.fs cod then [] else [Event.makeDir cod]
  let df_opnmf0 := env.readCsv (opnmfTsvPath c.opnmf_dir i)
  let ev := mk ++ [Event.readTsv (opnmfTsvPath c.opnmf_dir i)]
  match processComponentTable df_participant df_opnmf0 with
  | Except.error msg => (ev, some (RunError.exn msg))
  | Except.ok df4 =>
    let ev2 := ev ++ [Event.writeTsv (intermediateTsvPath c.output_dir i) df4]
    match osPathExists3 cod "classification" "mean_results.tsv" with
    | Except.error e => (ev2, some e)
    | Except.ok b =>
      if b then (ev2, none)
      else
        let call := perScaleRoiCall (intermediateTsvPath c.output_dir i) cod
          c.cv_repetition c.cv_strategy c.class_weight_balanced c.n_threads c.verbose
        let sub := classification_roi env.fs call
        (ev2 ++ Event.callClassificationRoi call :: sub.1, sub.2)

/-- Source line 261: the loop over `components_list`, aborting at the
first iteration that raises. -/
def componentLoop (env : Env) (df_participant : DataFrame) (c : MsCall) :
    List Nat → Outcome
  | [] => ([], none)
  | i :: rest =>
    stepSeq (componentLoopBody env df_participant c i) (fun _ =>
      componentLoop env df_participant c rest)

/-- Source lines 294-305: dispatch on `voting_method` after the loop. -/
def votingDispatch (c : MsCall) : Outcome :=
  if c.voting_method = "soft_voting" then
    ([Event.callVoting "soft_majority_voting" c.output_dir c.components_list
        c.cv_repetition], none)
  else if c.voting_method = "hard_voting" then
    ([Event.callVoting "hard_majority_voting" c.output_dir c.components_list
        c.cv_repetition], none)
  else if c.voting_method = "consensus_voting" then
    ([Event.callVoting "consensus_voting" c.output_dir c.components_list
        c.cv_repetition], none)
  else ([], some (RunError.exn "Method not implemented yet！"))

/-- Source lines 216-307: `classification_multiscale_opnmf`.  Reject a
strategy other than hold_out, read the participant tsv, create the
intermediate and ensemble directories when absent, loop over the
components, then dispatch on the voting method. -/
def classification_multiscale_opnmf (env : Env) (c : MsCall) : Outcome :=
  if c.cv_strategy ≠ "hold_out" then
    ([], some (RunError.exn "Only support repetaed hold-out CV currently!"))
  else
    let df_participant := env.readCsv c.participant_tsv
    let mkInter : List Event :=
      if env.fs (pathJoin c.output_dir "intermediate") then []
      else [Event.makeDir (pathJoin c.output_dir "intermediate")]
    let mkEns : List Event :=
      if env.fs (pathJoin c.output_dir "ensemble") then []
      else [Event.makeDir (pathJoin c.output_dir "ensemble")]
    stepSeq (Event.readTsv c.participant_tsv :: (mkInter ++ mkEns), none) (fun _ =>
      stepSeq (componentLoop env df_participant c c.components_list) (fun _ =>
        votingDispatch c))

/-- Does the event run a classification workflow? -/
def isWorkflowEvt : Event → Bool
  | Event.runWorkflow _ _ => true
  | _ => false

/-- Does the event generate a cross-validation partition? -/
def isGenerateEvt : Event → Bool
  | Event.generatePartition _ _ _ => true
  | _ => false

/-- Does the event persist a cross-validation partition? -/
def isPersistEvt : Event → Bool
  | Event.persistPartition _ => true
  | _ => false

/-- Does the event call `make_cv_partition`? -/
def isMakeCvPartitionEvt : Event → Bool
  | Event.callMakeCvPartition _ _ _ => true
  | _ => false

/-- Does the event load a persisted data split? -/
def isLoadCacheEvt : Event → Bool
  | Event.loadCache _ => true
  | _ => false

/-- Does the event write a tsv file? -/
def isWriteEvt : Event → Bool
  | Event.writeTsv _ _ => true
  | _ => false

/-- Does the event invoke `classification_roi`? -/
def isCallRoiEvt : Event → Bool
  | Event.callClassificationRoi _ => true
  | _ => false

/-- Does the event invoke a voting aggregator? -/
def isVotingEvt : Event → Bool
  | Event.callVoting _ _ _ _ => true
  | _ => false

/-- Concrete two-subject participant table for the concrete runs. -/
def dfParticipantX : DataFrame :=
  { cols := ["participant_id", "session_id", "diagnosis"],
    rows := [["s1", "a", "0"], ["s2", "a", "1"]] }

/-- Concrete opNMF component table (component count 2), rows out of
order relative to the participant table. -/
def dfOpnmfX : DataFrame :=
  { cols := ["participant_id", "session_id", "path", "c1", "c2"],
    rows := [["s2", "a", "p2", "5", "6"], ["s1", "a", "p1", "3", "4"]] }

/-- A one-row opNMF table whose row count disagrees with the two-row
participant table. -/
def dfOpnmfShort : DataFrame :=
  { cols := ["participant_id", "session_id", "path", "c1"],
    rows := [["s1", "a", "p1", "3"]] }

/-- The intermediate table built from the two tables above: participant
order restored, diagnosis substituted for path. -/
def dfIntermediateX : DataFrame :=
  { cols := ["participant_id", "session_id", "diagnosis", "c1", "c2"],
    rows := [["s1", "a", "0", "3", "4"], ["s2", "a", "1", "5", "6"]] }

/-- Concrete environment with no pre-existing files. -/
def envNoFiles : Env :=
  { fs := fun _ => false,
    readCsv := fun p =>
      if p = "pt.tsv" then dfParticipantX
      else if p = "nmf/NMF/component_2/atlas_components_signal.tsv" then dfOpnmfX
      else { cols := [], rows := [] } }

/-- Concrete environment where the component-2 summary artifact
`out/component_2/classification/mean_results.tsv` already exists. -/
def envWithArtifact : Env :=
  { fs := fun p => p == "out/component_2/classification/mean_results.tsv",
    readCsv := envNoFiles.readCsv }

/-- Concrete multiscale call: one component, hold-out, hard voting. -/
def msHard : MsCall :=
  { participant_tsv := "pt.tsv", opnmf_dir := "nmf", output_dir := "out",
    components_list := [2], cv_repetition := 5, cv_strategy := "hold_out",
    voting_method := "hard_voting", class_weight_balanced := true,
    n_threads := 8, verbose := false }

/-- The same call with an unsupported voting method. -/
def msBadVoting : MsCall := { msHard with voting_method := "majority" }

/-- The same call with an empty components list (the loop is skipped). -/
def msEmptyHard : MsCall := { msHard with components_list := [] }

/-- Concrete entry-point call: hold-out with no seed. -/
def callHoldOut : ClassifyCall :=
  { feature_tsv := "feat.tsv", output_dir := "out", cv_repetition := 5,
    cv_strategy := "hold_out", class_weight_balanced := true, n_threads := 8,
    seed := none, verbose := false }

/-- The same configuration with k-fold CV and a different seed. -/
def callKFoldSeed1 : ClassifyCall :=
  { callHoldOut with cv_strategy := "k_fold", seed := some 1 }

/-- The same configuration with an unsupported CV strategy. -/
def callBadStrategy : ClassifyCall := { callHoldOut with cv_strategy := "loocv" }

/-- A file system on which every path exists. -/
def fsAll : String → Bool := fun _ => true

/-- A file system on which no path exists. -/
def fsNone : String → Bool := fun _ => false

@[simp]
theorem stepSeq_some (ev : List Event) (e : RunError) (k : Unit → Outcome) :
    stepSeq (ev, some e) k = (ev, some e) := rfl

@[simp]
theorem stepSeq_none (ev : List Event) (k : Unit → Outcome) :
    stepSeq (ev, none) k = (ev ++ (k ()).1, (k ()).2) := rfl

theorem stepSeq_fst_of_snd_some (a : Outcome) (k : Unit → Outcome)
    (h : a.2.isSome) : stepSeq a k = (a.1, a.2) := by
  obtain ⟨e, he⟩ := Option.isSome_iff_exists.mp h
  obtain ⟨ev, err⟩ := a
  simp_all

theorem componentLoopBody_eq (env : Env) (dfp : DataFrame) (c : MsCall) (i : Nat) :
    componentLoopBody env dfp c i =
      ((if env.fs (componentOutputDir c.output_dir i) then []
        else [Event.makeDir (componentOutputDir c.output_dir i)]) ++
        [Event.readTsv (opnmfTsvPath c.opnmf_dir i)] ++
        (match processComponentTable dfp (env.readCsv (opnmfTsvPath c.opnmf_dir i)) with
         | Except.error _ => []
         | Except.ok df4 => [Event.writeTsv (intermediateTsvPath c.output_dir i) df4]),
       match processComponentTable dfp (env.readCsv (opnmfTsvPath c.opnmf_dir i)) with
       | Except.error msg => some (RunError.exn msg)
       | Except.ok _ =>
         some (RunError.typeError "exists() takes 1 positional argument but 3 were given")) := by
  cases h : processComponentTable dfp (env.readCsv (opnmfTsvPath c.opnmf_dir i)) with
  | error msg => simp [componentLoopBody, h]
  | ok df4 => simp [componentLoopBody, h, osPathExists3]

theorem componentLoopBody_snd_isSome (env : Env) (dfp : DataFrame) (c : MsCall)
    (i : Nat) : (componentLoopBody env dfp c i).2.isSome := by
  rw [componentLoopBody_eq]
  cases processComponentTable dfp (env.readCsv (opnmfTsvPath c.opnmf_dir i)) <;> simp

theorem componentLoopBody_events (env : Env) (dfp : DataFrame) (c : MsCall)
    (i : Nat) (e : Event) (he : e ∈ (componentLoopBody env dfp c i).1) :
    (∃ p, e = Event.makeDir p) ∨ (∃ p, e = Event.readTsv p) ∨
      (∃ p df, e = Event.writeTsv p df) := by
  rw [componentLoopBody_eq] at he
  simp only [List.mem_append] at he
  rcases he with (he | he) | he
  · left
    split at he <;> simp_all
  · right; left
    simp_all
  · right; right
    split at he <;> simp_all

theorem componentLoop_events (env : Env) (dfp : DataFrame) (c : MsCall)
    (l : List Nat) (e : Event) (he : e ∈ (componentLoop env dfp c l).1) :
    (∃ p, e = Event.makeDir p) ∨ (∃ p, e = Event.readTsv p) ∨
      (∃ p df, e = Event.writeTsv p df) := by
  induction l with
  | nil => simp [componentLoop] at he
  | cons i rest ih =>
    rw [componentLoop,
      stepSeq_fst_of_snd_some _ _ (componentLoopBody_snd_isSome env dfp c i)] at he
    exact componentLoopBody_events env dfp c i e he

theorem componentLoop_cons_snd (env : Env) (dfp : DataFrame) (c : MsCall)
    (i : Nat) (rest : List Nat) :
    (componentLoop env dfp c (i :: rest)).2 = (componentLoopBody env dfp c i).2 := by
  rw [componentLoop,
    stepSeq_fst_of_snd_some _ _ (componentLoopBody_snd_isSome env dfp c i)]

theorem componentLoop_cons_fst (env : Env) (dfp : DataFrame) (c : MsCall)
    (i : Nat) (rest : List Nat) :
    (componentLoop env dfp c (i :: rest)).1 = (componentLoopBody env dfp c i).1 := by
  rw [componentLoop,
    stepSeq_fst_of_snd_some _ _ (componentLoopBody_snd_isSome env dfp c i)]

theorem votingDispatch_events (c : MsCall) (e : Event)
    (he : e ∈ (votingDispatch c).1) :
    ∃ f, e = Event.callVoting f c.output_dir c.components_list c.cv_repetition := by
  unfold votingDispatch at he
  split at he
  · exact ⟨_, by simpa using he⟩
  · split at he
    · exact ⟨_, by simpa using he⟩
    · split at he
      · exact ⟨_, by simpa using he⟩
      · simp at he

theorem multiscale_trace_of_holdout (env : Env) (c : MsCall)
    (hs : c.cv_strategy = "hold_out") :
    classification_multiscale_opnmf env c =
      (Event.readTsv c.participant_tsv ::
        ((if env.fs (pathJoin c.output_dir "intermediate") then []
          else [Event.makeDir (pathJoin c.output_dir "intermediate")]) ++
         ((if env.fs (pathJoin c.output_dir "ensemble") then []
           else [Event.makeDir (pathJoin c.output_dir "ensemble")]) ++
          (stepSeq (componentLoop env (env.readCsv c.participant_tsv) c c.components_list)
            (fun _ => votingDispatch c)).1)),
       (stepSeq (componentLoop env (env.readCsv c.participant_tsv) c c.components_list)
         (fun _ => votingDispatch c)).2) := by
  unfold classification_multiscale_opnmf
  simp [hs]

theorem multiscale_events (env : Env) (c : MsCall) (e : Event)
    (he : e ∈ (classification_multiscale_opnmf env c).1) :
    e = Event.readTsv c.participant_tsv ∨ (∃ p, e = Event.makeDir p) ∨
      (∃ p, e = Event.readTsv p) ∨ (∃ p df, e = Event.writeTsv p df) ∨
      (∃ f, e = Event.callVoting f c.output_dir c.components_list c.cv_repetition) := by
  by_cases hs : c.cv_strategy = "hold_out"
  · rw [multiscale_trace_of_holdout env c hs] at he
    simp only [List.mem_cons, List.mem_append] at he
    rcases he with he | he | he | he
    · exact Or.inl he
    · refine Or.inr (Or.inl ?_)
      split at he <;> simp_all
    · refine Or.inr (Or.inl ?_)
      split at he <;> simp_all
    · rcases hloop : componentLoop env (env.readCsv c.participant_tsv) c
        c.components_list with ⟨l1, l2⟩
      rw [hloop] at he
      cases l2 with
      | some err =>
        rw [stepSeq_some] at he
        have h2 := componentLoop_events env (env.readCsv c.participant_tsv) c
          c.components_list e (by rw [hloop]; exact he)
        rcases h2 with h2 | h2 | h2
        · exact Or.inr (Or.inl h2)
        · exact Or.inr (Or.inr (Or.inl h2))
        · exact Or.inr (Or.inr (Or.inr (Or.inl h2)))
      | none =>
        rw [stepSeq_none] at he
        rcases List.mem_append.mp he with h | h
        · have h2 := componentLoop_events env (env.readCsv c.participant_tsv) c
            c.components_list e (by rw [hloop]; exact h)
          rcases h2 with h2 | h2 | h2
          · exact Or.inr (Or.inl h2)
          · exact Or.inr (Or.inr (Or.inl h2))
          · exact Or.inr (Or.inr (Or.inr (Or.inl h2)))
        · exact Or.inr (Or.inr (Or.inr (Or.inr (votingDispatch_events c e h))))
  · unfold classification_multiscale_opnmf at he
    simp [hs] at he

theorem idxOfCol_cons (c : String) (cs : List String) (d : String) :
    idxOfCol (c :: cs) d = if c = d then some 0 else (idxOfCol cs d).map (· + 1) := rfl

theorem cellAt_cons_self (cols : List String) (c v : String) (t : List String) :
    cellAt (c :: cols) (v :: t) c = v := by
  simp [cellAt, idxOfCol_cons]

theorem cellAt_cons_ne (cols : List String) (c d : String) (h : c ≠ d)
    (v : String) (t : List String) :
    cellAt (c :: cols) (v :: t) d = cellAt cols t d := by
  unfold cellAt
  rw [idxOfCol_cons, if_neg h]
  cases hx : idxOfCol cols d <;> simp [hx]

theorem zip_map_fst {α β γ : Type} (f : α → γ) :
    ∀ (l1 : List α) (l2 : List β), l1.length ≤ l2.length →
      (l1.zip l2).map (fun rv => f rv.1) = l1.map f
  | [], _, _ => rfl
  | _ :: _, [], h => by simp at h
  | a :: l1, b :: l2, h => by
    simp only [List.zip_cons_cons, List.map_cons]
    rw [zip_map_fst f l1 l2 (by simpa using h)]

theorem zip_map_snd {α β γ : Type} (g : β → γ) :
    ∀ (l1 : List α) (l2 : List β), l2.length ≤ l1.length →
      (l1.zip l2).map (fun rv => g rv.2) = l2.map g
  | _, [], _ => by simp
  | [], _ :: _, h => by simp at h
  | a :: l1, b :: l2, h => by
    simp only [List.zip_cons_cons, List.map_cons]
    rw [zip_map_snd g l1 l2 (by simpa using h)]

theorem filter_ne_of_not_mem (a : String) :
    ∀ (l : List String), a ∉ l → l.filter (fun c => !(c == a)) = l
  | [], _ => rfl
  | b :: l, h => by
    simp only [List.mem_cons, not_or] at h
    have hb : (b == a) = false := beq_eq_false_iff_ne.mpr (fun hba => h.1 hba.symm)
    simp [List.filter_cons, hb, filter_ne_of_not_mem a l h.2]

theorem map_rename_eq_self (a b : String) :
    ∀ (l : List String), a ∉ l → l.map (fun c => if c = a then b else c) = l
  | [], _ => rfl
  | c :: l, h => by
    simp only [List.mem_cons, not_or] at h
    rw [List.map_cons, if_neg (fun hca => h.1 hca.symm),
      map_rename_eq_self a b l h.2]

theorem colOf_length (df : DataFrame) (c : String) :
    (colOf df c).length = df.rows.length := by
  simp [colOf]

theorem reindex_participant_col (df : DataFrame) :
    ∀ (pids : List String),
      colOf (reindexByParticipant df pids) "participant_id" = pids
  | [] => rfl
  | p :: ps => by
    have ih := reindex_participant_col df ps
    simp only [colOf, reindexByParticipant, List.map_cons] at ih ⊢
    rw [cellAt_cons_self, ih]

theorem reindex_rows_length (df : DataFrame) (pids : List String) :
    (reindexByParticipant df pids).rows.length = pids.length := by
  simp [reindexByParticipant]

theorem reindex_rows_cons (df : DataFrame) (pids : List String) :
    ∀ r ∈ (reindexByParticipant df pids).rows, ∃ p t, r = p :: t := by
  intro r hr
  simp only [reindexByParticipant, List.mem_map] at hr
  obtain ⟨p, _, hp⟩ := hr
  exact ⟨p, lookupRow df p, hp.symm⟩

theorem filterByParticipants_cols (df : DataFrame) (pids : List String) :
    (filterByParticipants df pids).cols = df.cols := rfl

theorem reindex_cols (df : DataFrame) (pids : List String) :
    (reindexByParticipant df pids).cols =
      "participant_id" :: df.cols.filter (fun c => !(c == "participant_id")) := rfl

theorem participant_col_after_set_rename (df2 : DataFrame) (rest : List String)
    (vals : List String) (hcols : df2.cols = "participant_id" :: rest)
    (hrows : ∀ r ∈ df2.rows, ∃ p t, r = p :: t)
    (hlen : df2.rows.length ≤ vals.length) :
    colOf (renameCol (setCol df2 "path" vals) "path" "diagnosis") "participant_id"
      = colOf df2 "participant_id" := by
  have hne : ("participant_id" : String) ≠ "path" := by decide
  by_cases hcon : df2.cols.contains "path"
  · unfold colOf renameCol setCol
    rw [if_pos hcon, hcols]
    simp only [List.map_map, List.map_cons]
    refine Eq.trans (List.map_congr_left ?_) (zip_map_fst
      (fun r => cellAt ("participant_id" :: rest) r "participant_id") df2.rows vals hlen)
    intro rv _
    simp only [Function.comp, List.map_cons]
    rw [if_neg hne, cellAt_cons_self, if_neg hne]
  · unfold colOf renameCol setCol
    rw [if_neg hcon, hcols]
    simp only [List.map_map, List.map_cons, List.cons_append, List.map_append]
    refine Eq.trans (List.map_congr_left ?_) (zip_map_fst
      (fun r => cellAt ("participant_id" :: rest) r "participant_id") df2.rows vals hlen)
    intro rv hrv
    obtain ⟨r, v⟩ := rv
    obtain ⟨p, t, hpt⟩ := hrows r ((List.of_mem_zip hrv).1)
    simp only [Function.comp, hpt, List.cons_append]
    rw [if_neg hne, cellAt_cons_self, cellAt_cons_self]

theorem setCol_rename_layout (df2 : DataFrame) (feats : List String)
    (vals : List String)
    (hcols : df2.cols = "participant_id" :: "session_id" :: "path" :: feats)
    (hf2 : "path" ∉ feats)
    (hlen : vals.length ≤ df2.rows.length) :
    (renameCol (setCol df2 "path" vals) "path" "diagnosis").cols
        = "participant_id" :: "session_id" :: "diagnosis" :: feats ∧
      colOf (renameCol (setCol df2 "path" vals) "path" "diagnosis") "diagnosis"
        = vals := by
  have hcon : df2.cols.contains "path" = true := by
    rw [hcols]
    simp [List.contains_cons]
  have h3 : ("participant_id" : String) ≠ "diagnosis" := by decide
  have h4 : ("session_id" : String) ≠ "diagnosis" := by decide
  constructor
  · unfold renameCol setCol
    rw [if_pos hcon, hcols]
    simp only [List.map_cons]
    simp only [show ¬(("participant_id" : String) = "path") from by decide,
      show ¬(("session_id" : String) = "path") from by decide, if_false, ite_false,
      if_pos rfl, if_true, ite_true]
    rw [map_rename_eq_self _ _ feats hf2]
  · unfold colOf renameCol setCol
    rw [if_pos hcon, hcols]
    simp only [List.map_map, List.map_cons]
    refine Eq.trans (List.map_congr_left ?_)
      (Eq.trans (zip_map_snd (fun v => v) df2.rows vals hlen) (List.map_id vals))
    intro rv _
    simp only [Function.comp, List.map_cons]
    simp only [show ¬(("participant_id" : String) = "path") from by decide,
      show ¬(("session_id" : String) = "path") from by decide, ite_false, if_pos rfl,
      if_true, ite_true]
    rw [cellAt_cons_ne _ _ _ h3, cellAt_cons_ne _ _ _ h4, cellAt_cons_self]

theorem loop_fst_of_first_ok (env : Env) (c : MsCall) (i : Nat) (rest : List Nat)
    (df4 : DataFrame) (hl : c.components_list = i :: rest)
    (hok : processComponentTable (env.readCsv c.participant_tsv)
      (env.readCsv (opnmfTsvPath c.opnmf_dir i)) = Except.ok df4) :
    (componentLoop env (env.readCsv c.participant_tsv) c c.components_list).1 =
      (if env.fs (componentOutputDir c.output_dir i) then []
       else [Event.makeDir (componentOutputDir c.output_dir i)]) ++
      [Event.readTsv (opnmfTsvPath c.opnmf_dir i)] ++
      [Event.writeTsv (intermediateTsvPath c.output_dir i) df4] := by
  rw [hl, componentLoop_cons_fst, componentLoopBody_eq, hok]

theorem loop_snd_of_first_ok (env : Env) (c : MsCall) (i : Nat) (rest : List Nat)
    (df4 : DataFrame) (hl : c.components_list = i :: rest)
    (hok : processComponentTable (env.readCsv c.participant_tsv)
      (env.readCsv (opnmfTsvPath c.opnmf_dir i)) = Except.ok df4) :
    (componentLoop env (env.readCsv c.participant_tsv) c c.components_list).2 =
      some (RunError.typeError "exists() takes 1 positional argument but 3 were given") := by
  rw [hl, componentLoop_cons_snd, componentLoopBody_eq, hok]

theorem loop_snd_isSome_of_cons (env : Env) (c : MsCall) (i : Nat) (rest : List Nat)
    (hl : c.components_list = i :: rest) :
    (componentLoop env (env.readCsv c.participant_tsv) c c.components_list).2.isSome := by
  rw [hl, componentLoop_cons_snd]
  exact componentLoopBody_snd_isSome env _ c i

theorem multiscale_snd_of_first_ok (env : Env) (c : MsCall) (i : Nat)
    (rest : List Nat) (df4 : DataFrame) (hs : c.cv_strategy = "hold_out")
    (hl : c.components_list = i :: rest)
    (hok : processComponentTable (env.readCsv c.participant_tsv)
      (env.readCsv (opnmfTsvPath c.opnmf_dir i)) = Except.ok df4) :
    (classification_multiscale_opnmf env c).2 =
      some (RunError.typeError "exists() takes 1 positional argument but 3 were given") := by
  rw [multiscale_trace_of_holdout env c hs]
  dsimp only
  rw [stepSeq_fst_of_snd_some _ _ (loop_snd_isSome_of_cons env c i rest hl)]
  exact loop_snd_of_first_ok env c i rest df4 hl hok

theorem writeTsv_mem_multiscale (env : Env) (c : MsCall) (i : Nat)
    (rest : List Nat) (df4 : DataFrame) (hs : c.cv_strategy = "hold_out")
    (hl : c.components_list = i :: rest)
    (hok : processComponentTable (env.readCsv c.participant_tsv)
      (env.readCsv (opnmfTsvPath c.opnmf_dir i)) = Except.ok df4) :
    Event.writeTsv (intermediateTsvPath c.output_dir i) df4 ∈
      (classification_multiscale_opnmf env c).1 := by
  rw [multiscale_trace_of_holdout env c hs]
  dsimp only
  rw [stepSeq_fst_of_snd_some _ _ (loop_snd_isSome_of_cons env c i rest hl)]
  dsimp only
  rw [loop_fst_of_first_ok env c i rest df4 hl hok]
  simp

theorem makeDir_intermediate_mem (env : Env) (c : MsCall)
    (hs : c.cv_strategy = "hold_out")
    (hf : env.fs (pathJoin c.output_dir "intermediate") = false) :
    Event.makeDir (pathJoin c.output_dir "intermediate") ∈
      (classification_multiscale_opnmf env c).1 := by
  rw [multiscale_trace_of_holdout env c hs]
  simp [hf]

theorem multiscale_no_roi (env : Env) (c : MsCall) (rc : ClassifyCall) :
    Event.callClassificationRoi rc ∉ (classification_multiscale_opnmf env c).1 := by
  intro h
  rcases multiscale_events env c _ h with h1 | ⟨p, h1⟩ | ⟨p, h1⟩ | ⟨p, df, h1⟩ | ⟨f, h1⟩ <;>
    simp at h1

theorem multiscale_no_workflow (env : Env) (c : MsCall) (n d : String) :
    Event.runWorkflow n d ∉ (classification_multiscale_opnmf env c).1 := by
  intro h
  rcases multiscale_events env c _ h with h1 | ⟨p, h1⟩ | ⟨p, h1⟩ | ⟨p, df, h1⟩ | ⟨f, h1⟩ <;>
    simp at h1

theorem multiscale_no_voting_of_nonempty (env : Env) (c : MsCall)
    (hne : c.components_list ≠ []) (f d : String) (l : List Nat) (r : Nat) :
    Event.callVoting f d l r ∉ (classification_multiscale_opnmf env c).1 := by
  intro h
  by_cases hs : c.cv_strategy = "hold_out"
  · obtain ⟨i, rest, hl⟩ : ∃ i rest, c.components_list = i :: rest := by
      cases hcl : c.components_list with
      | nil => exact absurd hcl hne
      | cons a b => exact ⟨a, b, rfl⟩
    rw [multiscale_trace_of_holdout env c hs] at h
    dsimp only at h
    rw [stepSeq_fst_of_snd_some _ _ (loop_snd_isSome_of_cons env c i rest hl)] at h
    dsimp only at h
    simp only [List.mem_cons, List.mem_append] at h
    rcases h with h | h | h | h
    · simp at h
    · split at h <;> simp_all
    · split at h <;> simp_all
    · rcases componentLoop_events env _ c c.components_list _ h with
        ⟨p, h1⟩ | ⟨p, h1⟩ | ⟨p, df, h1⟩ <;> simp at h1
  · unfold classification_multiscale_opnmf at h
    simp [hs] at h

theorem multiscale_snd_ne_none (env : Env) (c : MsCall)
    (hne : c.components_list ≠ []) :
    (classification_multiscale_opnmf env c).2 ≠ none := by
  by_cases hs : c.cv_strategy = "hold_out"
  · obtain ⟨i, rest, hl⟩ : ∃ i rest, c.components_list = i :: rest := by
      cases hcl : c.components_list with
      | nil => exact absurd hcl hne
      | cons a b => exact ⟨a, b, rfl⟩
    rw [multiscale_trace_of_holdout env c hs]
    dsimp only
    rw [stepSeq_fst_of_snd_some _ _ (loop_snd_isSome_of_cons env c i rest hl)]
    dsimp only
    exact Option.isSome_iff_ne_none.mp (loop_snd_isSome_of_cons env c i rest hl)
  · unfold classification_multiscale_opnmf
    simp [hs]

/-- C1: contrary to the claim (the spec's idempotent-skip behavior), the
artifact-existence check of line 288 passes three positional arguments to
`os.path.exists`, so even with the summary artifact
`component_2/classification/mean_results.tsv` present the scale is not
skipped and the run does not proceed to voting: it aborts with a
TypeError; and with the artifact absent, `classification_roi` is still
never invoked. -/
theorem claim1_artifact_check_always_raises :
    (classification_multiscale_opnmf envWithArtifact msHard).2 =
      some (RunError.typeError "exists() takes 1 positional argument but 3 were given") ∧
    (classification_multiscale_opnmf envWithArtifact msHard).1.all
      (fun e => !(isCallRoiEvt e) && !(isVotingEvt e)) = true ∧
    (classification_multiscale_opnmf envNoFiles msHard).2 =
      some (RunError.typeError "exists() takes 1 positional argument but 3 were given") ∧
    (classification_multiscale_opnmf envNoFiles msHard).1.all
      (fun e => !(isCallRoiEvt e)) = true :=
  ⟨rfl, rfl, rfl, rfl⟩

/-- C2: for any call with a non-empty components_list, hold-out strategy
and input tables whose first component processes cleanly, the run aborts
with the TypeError of the three-argument `os.path.exists` call at the
first component — after the output directories are created and the first
intermediate per-scale table is written, and before any per-scale
classification workflow or voting; moreover no multiscale run with a
non-empty components_list ever completes normally. -/
theorem claim2_first_component_typeerror (env : Env) (c : MsCall) (i : Nat)
    (rest : List Nat) (df4 : DataFrame) (hs : c.cv_strategy = "hold_out")
    (hl : c.components_list = i :: rest)
    (hok : processComponentTable (env.readCsv c.participant_tsv)
      (env.readCsv (opnmfTsvPath c.opnmf_dir i)) = Except.ok df4) :
    (classification_multiscale_opnmf env c).2 =
        some (RunError.typeError "exists() takes 1 positional argument but 3 were given") ∧
      Event.writeTsv (intermediateTsvPath c.output_dir i) df4 ∈
        (classification_multiscale_opnmf env c).1 ∧
      (env.fs (pathJoin c.output_dir "intermediate") = false →
        Event.makeDir (pathJoin c.output_dir "intermediate") ∈
          (classification_multiscale_opnmf env c).1) ∧
      (∀ rc, Event.callClassificationRoi rc ∉ (classification_multiscale_opnmf env c).1) ∧
      (∀ n d, Event.runWorkflow n d ∉ (classification_multiscale_opnmf env c).1) ∧
      (∀ f d l r, Event.callVoting f d l r ∉ (classification_multiscale_opnmf env c).1) ∧
      (∀ (env2 : Env) (c2 : MsCall), c2.components_list ≠ [] →
        (classification_multiscale_opnmf env2 c2).2 ≠ none) :=
  ⟨multiscale_snd_of_first_ok env c i rest df4 hs hl hok,
   writeTsv_mem_multiscale env c i rest df4 hs hl hok,
   fun hf => makeDir_intermediate_mem env c hs hf,
   fun rc => multiscale_no_roi env c rc,
   fun n d => multiscale_no_workflow env c n d,
   fun f d l r => multiscale_no_voting_of_nonempty env c (by rw [hl]; simp) f d l r,
   fun env2 c2 hne => multiscale_snd_ne_none env2 c2 hne⟩

/-- Witness for C2 at a concrete environment and call. -/
theorem claim2_witness :
    msHard.cv_strategy = "hold_out" ∧ msHard.components_list = 2 :: [] ∧
    processComponentTable (envNoFiles.readCsv msHard.participant_tsv)
      (envNoFiles.readCsv (opnmfTsvPath msHard.opnmf_dir 2)) =
      Except.ok dfIntermediateX ∧
    (classification_multiscale_opnmf envNoFiles msHard).2 =
      some (RunError.typeError "exists() takes 1 positional argument but 3 were given") ∧
    Event.writeTsv (intermediateTsvPath msHard.output_dir 2) dfIntermediateX ∈
      (classification_multiscale_opnmf envNoFiles msHard).1 :=
  ⟨rfl, rfl, rfl,
   (claim2_first_component_typeerror envNoFiles msHard 2 [] dfIntermediateX rfl rfl rfl).1,
   (claim2_first_component_typeerror envNoFiles msHard 2 [] dfIntermediateX rfl rfl rfl).2.1⟩

/-- C3 counterexample: two calls with the same output_dir and
cv_repetition but different cv_strategy and different seed consult the
identical cache file, and with that file present both load the very same
persisted split — the cache key does not distinguish strategy or seed. -/
theorem claim3_counterexample :
    cachePathOf callHoldOut = cachePathOf callKFoldSeed1 ∧
    (callHoldOut.cv_strategy == callKFoldSeed1.cv_strategy) = false ∧
    (callHoldOut.seed == callKFoldSeed1.seed) = false ∧
    Event.loadCache (cachePathOf callHoldOut) ∈
      (classification_roi fsAll callHoldOut).1 ∧
    Event.loadCache (cachePathOf callHoldOut) ∈
      (classification_roi fsAll callKFoldSeed1).1 :=
  ⟨rfl, rfl, rfl, by decide, by decide⟩

/-- C3 amended: the consulted cache path depends only on output_dir and
cv_repetition (`data_split_stratified_<rep>-holdout.pkl`), so any two
calls agreeing on those consult the same file regardless of cv_strategy
and seed. -/
theorem claim3_cache_key_ignores_strategy_and_seed (c1 c2 : ClassifyCall)
    (ho : c1.output_dir = c2.output_dir)
    (hr : c1.cv_repetition = c2.cv_repetition) :
    cachePathOf c1 = cachePathOf c2 := by
  simp [cachePathOf, consultedCachePath, splitFilename, ho, hr]

/-- Witness for the amended C3 at two concrete calls. -/
theorem claim3_witness :
    callHoldOut.output_dir = callKFoldSeed1.output_dir ∧
    callHoldOut.cv_repetition = callKFoldSeed1.cv_repetition ∧
    cachePathOf callHoldOut = cachePathOf callKFoldSeed1 :=
  ⟨rfl, rfl, claim3_cache_key_ignores_strategy_and_seed callHoldOut callKFoldSeed1 rfl rfl⟩

/-- C4: the per-scale `classification_roi` call record the orchestrator
constructs at lines 291-292 carries the literal seed 0 for every
component, and hence every `classification_roi` invocation event of any
multiscale run carries seed 0 (in the code as written the invocation is
unreachable — see C2 — so the event never occurs at all). -/
theorem claim4_shared_seed_zero (t cod : String) (rep : Nat) (strat : String)
    (cwb : Bool) (nt : Nat) (vb : Bool) (env : Env) (c : MsCall)
    (rc : ClassifyCall) :
    (perScaleRoiCall t cod rep strat cwb nt vb).seed = some 0 ∧
    (Event.callClassificationRoi rc ∈ (classification_multiscale_opnmf env c).1 →
      rc.seed = some 0) :=
  ⟨rfl, fun h => absurd h (multiscale_no_roi env c rc)⟩

/-- Witness for C4 at concrete arguments. -/
theorem claim4_witness :
    (perScaleRoiCall "out/intermediate/opnmf_component_2.tsv" "out/component_2"
      5 "hold_out" true 8 false).seed = some 0 :=
  (claim4_shared_seed_zero "out/intermediate/opnmf_component_2.tsv"
    "out/component_2" 5 "hold_out" true 8 false envNoFiles msHard callHoldOut).1

/-- C5: an unsupported cv_strategy makes both `classification_roi` and
`classification_voxel` raise, with no classification workflow run, no
partition generated and none persisted (`make_cv_partition` modelled from
the spec as raising on an unsupported strategy before generating). -/
theorem claim5_bad_strategy_fails_fast (fs : String → Bool) (c : ClassifyCall)
    (h1 : c.cv_strategy ≠ "hold_out") (h2 : c.cv_strategy ≠ "k_fold") :
    (classification_roi fs c).2.isSome = true ∧
    (classification_roi fs c).1.all
      (fun e => !(isWorkflowEvt e) && !(isGenerateEvt e) && !(isPersistEvt e)) = true ∧
    (classification_voxel fs c).2.isSome = true ∧
    (classification_voxel fs c).1.all
      (fun e => !(isWorkflowEvt e) && !(isGenerateEvt e) && !(isPersistEvt e)) = true := by
  by_cases hfs : fs (consultedCachePath c.output_dir c.cv_repetition) <;>
    simp [classification_roi, classification_voxel, dataSplitPhase, make_cv_partition,
      roiDispatch, voxelDispatch, h1, h2, hfs, isWorkflowEvt, isGenerateEvt, isPersistEvt]

/-- Witness for C5 at a concrete unsupported strategy. -/
theorem claim5_witness :
    (callBadStrategy.cv_strategy == "hold_out") = false ∧
    (callBadStrategy.cv_strategy == "k_fold") = false ∧
    (classification_roi fsNone callBadStrategy).2.isSome = true ∧
    (classification_voxel fsNone callBadStrategy).2.isSome = true :=
  ⟨rfl, rfl,
   (claim5_bad_strategy_fails_fast fsNone callBadStrategy (by decide) (by decide)).1,
   (claim5_bad_strategy_fails_fast fsNone callBadStrategy (by decide) (by decide)).2.2.1⟩

/-- C6 counterexample: with an unsupported voting_method and a non-empty
components_list the run does not raise the voting-method exception at
all, let alone immediately: it writes the first intermediate table
(computation happens with the voting method still unexamined) and aborts
with the TypeError of the artifact check. -/
theorem claim6_counterexample :
    (classification_multiscale_opnmf envNoFiles msBadVoting).2 =
      some (RunError.typeError "exists() takes 1 positional argument but 3 were given") ∧
    ((classification_multiscale_opnmf envNoFiles msBadVoting).2 ==
      some (RunError.exn "Method not implemented yet！")) = false ∧
    (classification_multiscale_opnmf envNoFiles msBadVoting).1.any isWriteEvt = true ∧
    (classification_multiscale_opnmf envNoFiles msBadVoting).1.all
      (fun e => !(isVotingEvt e)) = true :=
  ⟨rfl, rfl, rfl, rfl⟩

/-- C6 amended: the voting_method check happens only after the loop over
components_list completes — never, for a non-empty list, because of the
C2 TypeError; when the loop does complete, an unsupported method raises
the "Method not implemented yet" exception and a supported method invokes
exactly the matching aggregator. -/
theorem claim6_voting_checked_after_loop (env : Env) (c : MsCall)
    (hs : c.cv_strategy = "hold_out") (hempty : c.components_list = []) :
    (c.voting_method ≠ "soft_voting" → c.voting_method ≠ "hard_voting" →
      c.voting_method ≠ "consensus_voting" →
      (classification_multiscale_opnmf env c).2 =
          some (RunError.exn "Method not implemented yet！") ∧
        (classification_multiscale_opnmf env c).1.all
          (fun e => !(isVotingEvt e)) = true) ∧
    (c.voting_method = "soft_voting" →
      (classification_multiscale_opnmf env c).2 = none ∧
      Event.callVoting "soft_majority_voting" c.output_dir c.components_list
        c.cv_repetition ∈ (classification_multiscale_opnmf env c).1) ∧
    (c.voting_method = "hard_voting" →
      (classification_multiscale_opnmf env c).2 = none ∧
      Event.callVoting "hard_majority_voting" c.output_dir c.components_list
        c.cv_repetition ∈ (classification_multiscale_opnmf env c).1) ∧
    (c.voting_method = "consensus_voting" →
      (classification_multiscale_opnmf env c).2 = none ∧
      Event.callVoting "consensus_voting" c.output_dir c.components_list
        c.cv_repetition ∈ (classification_multiscale_opnmf env c).1) ∧
    (∀ (env2 : Env) (c2 : MsCall) (f d : String) (l : List Nat) (r : Nat),
      c2.components_list ≠ [] →
      Event.callVoting f d l r ∉ (classification_multiscale_opnmf env2 c2).1) := by
  have htr := multiscale_trace_of_holdout env c hs
  rw [hempty] at htr
  simp only [componentLoop, stepSeq_none, List.nil_append] at htr
  refine ⟨?_, ?_, ?_, ?_, ?_⟩
  · intro h1 h2 h3
    rw [htr]
    constructor
    · simp [votingDispatch, h1, h2, h3]
    · simp only [votingDispatch, h1, h2, h3, if_false, ite_false, List.all_cons,
        List.all_append, isVotingEvt, Bool.not_false, Bool.true_and, Bool.and_true]
      simp only [Bool.and_eq_true]
      refine ⟨?_, ?_, rfl⟩ <;> split <;> rfl
  · intro h1
    rw [htr]
    constructor
    · simp [votingDispatch, h1]
    · simp [votingDispatch, h1]
  · intro h1
    rw [htr]
    constructor
    · simp [votingDispatch, h1]
    · simp [votingDispatch, h1]
  · intro h1
    rw [htr]
    constructor
    · simp [votingDispatch, h1]
    · simp [votingDispatch, h1]
  · intro env2 c2 f d l r hne
    exact multiscale_no_voting_of_nonempty env2 c2 hne f d l r

/-- Witness for the amended C6: an empty components_list with hard voting
reaches the dispatch and invokes hard_majority_voting. -/
theorem claim6_witness :
    msEmptyHard.cv_strategy = "hold_out" ∧ msEmptyHard.components_list = [] ∧
    (classification_multiscale_opnmf envNoFiles msEmptyHard).2 = none ∧
    Event.callVoting "hard_majority_voting" msEmptyHard.output_dir
      msEmptyHard.components_list msEmptyHard.cv_repetition ∈
      (classification_multiscale_opnmf envNoFiles msEmptyHard).1 :=
  ⟨rfl, rfl,
   ((claim6_voting_checked_after_loop envNoFiles msEmptyHard rfl rfl).2.2.1 rfl).1,
   ((claim6_voting_checked_after_loop envNoFiles msEmptyHard rfl rfl).2.2.1 rfl).2⟩

/-- C8: with cv_strategy k_fold, both feature-selection entry points
raise the unsupported-combination exception and no classification
workflow is constructed or run. -/
theorem claim8_kfold_feature_selection_raises (fs : String → Bool)
    (c : ClassifyCall) (hk : c.cv_strategy = "k_fold") :
    (classification_roi_feature_selection fs c).2 =
        some (RunError.exn
          "Non-nested feature selection is currently only supported for repeated hold-out CV") ∧
      (classification_roi_feature_selection fs c).1.all
        (fun e => !(isWorkflowEvt e)) = true ∧
      (classification_voxel_feature_selection fs c).2 =
        some (RunError.exn
          "Non-nested feature selection is currently only supported for repeated hold-out CV") ∧
      (classification_voxel_feature_selection fs c).1.all
        (fun e => !(isWorkflowEvt e)) = true := by
  by_cases hfs : fs (consultedCachePath c.output_dir c.cv_repetition) <;>
    simp [classification_roi_feature_selection, classification_voxel_feature_selection,
      dataSplitPhase, make_cv_partition, roiFsDispatch, voxelFsDispatch, hk, hfs,
      isWorkflowEvt]

/-- Witness for C8 at a concrete k-fold call. -/
theorem claim8_witness :
    callKFoldSeed1.cv_strategy = "k_fold" ∧
    (classification_roi_feature_selection fsNone callKFoldSeed1).2 =
      some (RunError.exn
        "Non-nested feature selection is currently only supported for repeated hold-out CV") ∧
    (classification_voxel_feature_selection fsNone callKFoldSeed1).2 =
      some (RunError.exn
        "Non-nested feature selection is currently only supported for repeated hold-out CV") :=
  ⟨rfl,
   (claim8_kfold_feature_selection_raises fsNone callKFoldSeed1 rfl).1,
   (claim8_kfold_feature_selection_raises fsNone callKFoldSeed1 rfl).2.2.1⟩

/-- C10: when the persisted split file exists, both `classification_roi`
and `classification_voxel` load it and never call `make_cv_partition`;
when it does not exist, they call `make_cv_partition` and load nothing. -/
theorem claim10_cache_loaded_else_generated (fs : String → Bool)
    (c : ClassifyCall) :
    (fs (cachePathOf c) = true →
      Event.loadCache (cachePathOf c) ∈ (classification_roi fs c).1 ∧
      (classification_roi fs c).1.all (fun e => !(isMakeCvPartitionEvt e)) = true ∧
      Event.loadCache (cachePathOf c) ∈ (classification_voxel fs c).1 ∧
      (classification_voxel fs c).1.all (fun e => !(isMakeCvPartitionEvt e)) = true) ∧
    (fs (cachePathOf c) = false →
      Event.callMakeCvPartition c.cv_strategy c.cv_repetition c.seed ∈
        (classification_roi fs c).1 ∧
      (classification_roi fs c).1.all (fun e => !(isLoadCacheEvt e)) = true ∧
      Event.callMakeCvPartition c.cv_strategy c.cv_repetition c.seed ∈
        (classification_voxel fs c).1 ∧
      (classification_voxel fs c).1.all (fun e => !(isLoadCacheEvt e)) = true) := by
  constructor <;> intro hfs <;>
    have hfs2 : fs (consultedCachePath c.output_dir c.cv_repetition) = _ := hfs <;>
    by_cases h1 : c.cv_strategy = "hold_out" <;>
    by_cases h2 : c.cv_strategy = "k_fold" <;>
    simp [classification_roi, classification_voxel, dataSplitPhase, make_cv_partition,
      roiDispatch, voxelDispatch, cachePathOf, h1, h2, hfs2, isMakeCvPartitionEvt,
      isLoadCacheEvt]

/-- Witness for C10 at a concrete call, with and without the cache file. -/
theorem claim10_witness :
    fsAll (cachePathOf callHoldOut) = true ∧
    fsNone (cachePathOf callHoldOut) = false ∧
    Event.loadCache (cachePathOf callHoldOut) ∈
      (classification_roi fsAll callHoldOut).1 ∧
    Event.callMakeCvPartition callHoldOut.cv_strategy callHoldOut.cv_repetition
      callHoldOut.seed ∈ (classification_roi fsNone callHoldOut).1 :=
  ⟨rfl, rfl,
   ((claim10_cache_loaded_else_generated fsAll callHoldOut).1 rfl).1,
   ((claim10_cache_loaded_else_generated fsNone callHoldOut).2 rfl).1⟩

/-- C7: the per-component table pipeline raises the dimension error
exactly when the participant table's row count differs from the filtered
opNMF table's, and on success the resulting table's participant_id column
equals the participant table's participant_id column — the rows are
re-ordered to the primary participant order before use. -/
theorem claim7_reorder_and_dimension_check (dfp dfo : DataFrame) :
    (dfp.rows.length ≠
        (filterByParticipants dfo (colOf dfp "participant_id")).rows.length →
      processComponentTable dfp dfo = Except.error
        "The dimension of the participant_tsv and opNMF are not consistent!") ∧
    (∀ out : DataFrame, processComponentTable dfp dfo = Except.ok out →
      colOf out "participant_id" = colOf dfp "participant_id") := by
  constructor
  · intro h
    simp only [processComponentTable]
    rw [if_pos h]
  · intro out hout
    simp only [processComponentTable] at hout
    by_cases h : dfp.rows.length =
        (filterByParticipants dfo (colOf dfp "participant_id")).rows.length
    · rw [if_neg (fun hne => hne h)] at hout
      simp only [Except.ok.injEq] at hout
      subst hout
      have hlen : (reindexByParticipant
          (filterByParticipants dfo (colOf dfp "participant_id"))
          (colOf dfp "participant_id")).rows.length ≤
          (colOf dfp "diagnosis").length := by
        rw [reindex_rows_length, colOf_length, colOf_length]
      rw [participant_col_after_set_rename _ _ _ rfl (reindex_rows_cons _ _) hlen,
        reindex_participant_col]
    · rw [if_pos h] at hout
      simp at hout

/-- Witness for C7: a reordered two-row table is restored to participant
order, and a one-row table trips the dimension check. -/
theorem claim7_witness :
    processComponentTable dfParticipantX dfOpnmfX = Except.ok dfIntermediateX ∧
    colOf dfIntermediateX "participant_id" =
      colOf dfParticipantX "participant_id" ∧
    processComponentTable dfParticipantX dfOpnmfShort = Except.error
      "The dimension of the participant_tsv and opNMF are not consistent!" :=
  ⟨rfl,
   (claim7_reorder_and_dimension_check dfParticipantX dfOpnmfX).2 dfIntermediateX rfl,
   (claim7_reorder_and_dimension_check dfParticipantX dfOpnmfShort).1 (by decide)⟩

/-- C9: when the opNMF table follows the declared layout (participant_id,
session_id, path, then the feature columns), the intermediate table has
the participant table's diagnosis values substituted as its single label
column and conforms to the declared input layout — participant_id first,
session_id second, diagnosis third, then the feature columns — and the
orchestrator writes exactly this table for the first component before
feeding its path to the per-scale classification. -/
theorem claim9_intermediate_layout (dfp dfo : DataFrame) (feats : List String)
    (out : DataFrame)
    (hc : dfo.cols = "participant_id" :: "session_id" :: "path" :: feats)
    (hf1 : "participant_id" ∉ feats) (hf2 : "path" ∉ feats)
    (hok : processComponentTable dfp dfo = Except.ok out) :
    out.cols = "participant_id" :: "session_id" :: "diagnosis" :: feats ∧
    colOf out "diagnosis" = colOf dfp "diagnosis" ∧
    (∀ (env : Env) (c : MsCall) (i : Nat) (rest : List Nat),
      c.cv_strategy = "hold_out" → c.components_list = i :: rest →
      env.readCsv c.participant_tsv = dfp →
      env.readCsv (opnmfTsvPath c.opnmf_dir i) = dfo →
      Event.writeTsv (intermediateTsvPath c.output_dir i) out ∈
        (classification_multiscale_opnmf env c).1) := by
  have hok0 := hok
  simp only [processComponentTable] at hok
  by_cases h : dfp.rows.length =
      (filterByParticipants dfo (colOf dfp "participant_id")).rows.length
  · rw [if_neg (fun hne => hne h)] at hok
    simp only [Except.ok.injEq] at hok
    have hdf2cols : (reindexByParticipant
        (filterByParticipants dfo (colOf dfp "participant_id"))
        (colOf dfp "participant_id")).cols =
        "participant_id" :: "session_id" :: "path" :: feats := by
      rw [reindex_cols, filterByParticipants_cols, hc]
      simp only [List.filter_cons]
      simp [filter_ne_of_not_mem _ feats hf1]
    have hlen : (colOf dfp "diagnosis").length ≤ (reindexByParticipant
        (filterByParticipants dfo (colOf dfp "participant_id"))
        (colOf dfp "participant_id")).rows.length := by
      rw [reindex_rows_length, colOf_length, colOf_length]
    have hmain := setCol_rename_layout
      (reindexByParticipant (filterByParticipants dfo (colOf dfp "participant_id"))
        (colOf dfp "participant_id"))
      feats (colOf dfp "diagnosis") hdf2cols hf2 hlen
    subst hok
    refine ⟨hmain.1, hmain.2, ?_⟩
    intro env c i rest hs hl hp ho
    exact writeTsv_mem_multiscale env c i rest _ hs hl (by rw [hp, ho]; exact hok0)
  · rw [if_pos h] at hok
    simp at hok

/-- Witness for C9 at the concrete tables and the concrete multiscale
run. -/
theorem claim9_witness :
    dfOpnmfX.cols =
      "participant_id" :: "session_id" :: "path" :: ["c1", "c2"] ∧
    processComponentTable dfParticipantX dfOpnmfX = Except.ok dfIntermediateX ∧
    dfIntermediateX.cols =
      "participant_id" :: "session_id" :: "diagnosis" :: ["c1", "c2"] ∧
    colOf dfIntermediateX "diagnosis" = colOf dfParticipantX "diagnosis" ∧
    Event.writeTsv (intermediateTsvPath msHard.output_dir 2) dfIntermediateX ∈
      (classification_multiscale_opnmf envNoFiles msHard).1 :=
  ⟨rfl, rfl,
   (claim9_intermediate_layout dfParticipantX dfOpnmfX ["c1", "c2"] dfIntermediateX
     rfl (by decide) (by decide) rfl).1,
   (claim9_intermediate_layout dfParticipantX dfOpnmfX ["c1", "c2"] dfIntermediateX
     rfl (by decide) (by decide) rfl).2.1,
   (claim9_intermediate_layout dfParticipantX dfOpnmfX ["c1", "c2"] dfIntermediateX
     rfl (by decide) (by decide) rfl).2.2 envNoFiles msHard 2 [] rfl rfl rfl rfl⟩

end Pyhydra

section Sanity

open Pyhydra

example :
    processComponentTable
      { cols := ["participant_id", "session_id", "diagnosis"],
        rows := [["s1", "a", "0"], ["s2", "a", "1"]] }
      { cols := ["participant_id", "session_id", "path", "c1", "c2"],
        rows := [["s2", "a", "p2", "5", "6"], ["s1", "a", "p1", "3", "4"]] } =
    Except.ok
      { cols := ["participant_id", "session_id", "diagnosis", "c1", "c2"],
        rows := [["s1", "a", "0", "3", "4"], ["s2", "a", "1", "5", "6"]] } := by
  rfl

example :
    processComponentTable
      { cols := ["participant_id", "session_id", "diagnosis"],
        rows := [["s1", "a", "0"], ["s2", "a", "1"]] }
      { cols := ["participant_id", "session_id", "path", "c1"],
        rows := [["s1", "a", "p1", "3"]] } =
    Except.error "The dimension of the participant_tsv and opNMF are not consistent!" := by
  rfl

example :
    (classification_multiscale_opnmf
      { fs := fun _ => false,
        readCsv := fun p =>
          if p = "pt.tsv" then
            { cols := ["participant_id", "session_id", "diagnosis"],
              rows := [["s1", "a", "0"], ["s2", "a", "1"]] }
          else
            { cols := ["participant_id", "session_id", "path", "c1"],
              rows := [["s2", "a", "p2", "5"], ["s1", "a", "p1", "3"]] } }
      { participant_tsv := "pt.tsv", opnmf_dir := "nmf", output_dir := "out",
        components_list := [2], cv_repetition := 5, cv_strategy := "hold_out",
        voting_method := "hard_voting", class_weight_balanced := true,
        n_threads := 8, verbose := false }).2 =
    some (RunError.typeError "exists() takes 1 positional argument but 3 were given") := by
  rfl

example :
    (classification_multiscale_opnmf
      { fs := fun _ => false, readCsv := fun _ => { cols := [], rows := [] } }
      { participant_tsv := "pt.tsv", opnmf_dir := "nmf", output_dir := "out",
        components_list := [], cv_repetition := 5, cv_strategy := "hold_out",
        voting_method := "hard_voting", class_weight_balanced := true,
        n_threads := 8, verbose := false }) =
    ([Event.readTsv "pt.tsv", Event.makeDir "out/intermediate", Event.makeDir "out/ensemble",
      Event.callVoting "hard_majority_voting" "out" [] 5], none) := by
  rfl

end Sanity
